import Mathlib

/-!
Verification development for the birthday greeting-card repository.

The repository contains three source files:
* `src/pages/home.jsx` — the opening "gift box" view (`Home`, `handleGiftClick`),
* `src/pages/celebration.jsx` — the celebration view (`SecondPage`: reveal
  choreography, typewriter effect, audio autoplay negotiation),
* `check-css.mjs`-style diagnostic script — a CLI CSS-import checker.

This file shallowly embeds the event-handler logic of those components as
explicit state-transition functions over inductive event types, and proves
(or refutes) the specification claims about them.  JavaScript strings are
modelled as Lean `String`s (character lists where convenient); the
single-threaded event loop is modelled by folding a transition function over
an explicit list of delivered events; timers that have been cleared are
modelled by guard flags making their delivery a no-op.
-/

namespace BdayApp

/-! ## Opening view (`home.jsx`, `handleGiftClick`)

State of one `Home` component instance, restricted to the fields the
claims speak about.  `animatingRef` is the re-entrancy flag; `confettiArmed`,
`fallbackArmed` model the two `setTimeout`s armed by `handleGiftClick`;
`listenerArmed` models the `once: true` `animationend` listener on the lid.
`confettiBursts`, `callbackCalls` and `navigations` count observable effects
(the `confetti-burst` class add, `onGiftClick()` and `navigate('/celebration')`).
-/

structure HomeState where
  animating : Bool
  isOpening : Bool
  confettiArmed : Bool
  fallbackArmed : Bool
  listenerArmed : Bool
  confettiBursts : Nat
  callbackCalls : Nat
  navigations : Nat
deriving DecidableEq, Repr

/-- The idle state of a freshly rendered `Home` component. -/
def initialHome : HomeState :=
  { animating := false, isOpening := false, confettiArmed := false,
    fallbackArmed := false, listenerArmed := false,
    confettiBursts := 0, callbackCalls := 0, navigations := 0 }

/-- Events the `Home` component's handlers react to: an activation
(click / tap / keyboard-enter all call `handleGiftClick`), the 180ms confetti
timeout firing, the 2600ms fallback timeout firing, and an `animationend`
event on the lid carrying its `animationName`. -/
inductive HomeEvent where
  | click
  | confettiFire
  | fallbackFire
  | animEnd (name : String)
deriving DecidableEq, Repr

/-- Translation of the body of `handleGiftClick` and the callbacks it arms
(home.jsx lines 32–63).  A delivered timer event is a no-op when its guard
flag is down (the timer was cleared or already fired); the `animationend`
listener is consumed on first delivery (`once: true`) whatever the
animation's name, and performs the completion work only for
`"lidFlipOpen"`. -/
def homeStep (s : HomeState) : HomeEvent → HomeState
  | .click =>
    if s.animating then s
    else
      { s with animating := true, isOpening := true,
               confettiArmed := true, fallbackArmed := true,
               listenerArmed := true }
  | .confettiFire =>
    if s.confettiArmed then
      { s with confettiArmed := false, confettiBursts := s.confettiBursts + 1 }
    else s
  | .fallbackFire =>
    if s.fallbackArmed then
      { s with fallbackArmed := false, animating := false,
               callbackCalls := s.callbackCalls + 1,
               navigations := s.navigations + 1 }
    else s
  | .animEnd name =>
    if s.listenerArmed then
      if name = "lidFlipOpen" then
        { s with listenerArmed := false, fallbackArmed := false,
                 animating := false,
                 callbackCalls := s.callbackCalls + 1,
                 navigations := s.navigations + 1 }
      else { s with listenerArmed := false }
    else s

/-- Deliver a list of events in order to a `Home` component instance. -/
def homeRun (s : HomeState) (evs : List HomeEvent) : HomeState :=
  evs.foldl homeStep s

theorem homeRun_nil (s : HomeState) : homeRun s [] = s := rfl

theorem homeRun_cons (s : HomeState) (e : HomeEvent) (evs : List HomeEvent) :
    homeRun s (e :: evs) = homeRun (homeStep s e) evs := rfl

theorem homeRun_append (s : HomeState) (a b : List HomeEvent) :
    homeRun s (a ++ b) = homeRun (homeRun s a) b :=
  List.foldl_append ..

/-- Delivering only confetti-timer events changes nothing but the confetti
fields: the arming flags and the completion counters are untouched. -/
theorem homeRun_confetti_only (a : List HomeEvent) :
    ∀ s : HomeState, (∀ e ∈ a, e = HomeEvent.confettiFire) →
      (homeRun s a).animating = s.animating ∧
      (homeRun s a).fallbackArmed = s.fallbackArmed ∧
      (homeRun s a).listenerArmed = s.listenerArmed ∧
      (homeRun s a).callbackCalls = s.callbackCalls ∧
      (homeRun s a).navigations = s.navigations := by
  induction a with
  | nil => intro s _; exact ⟨rfl, rfl, rfl, rfl, rfl⟩
  | cons e rest ih =>
    intro s h
    have he : e = HomeEvent.confettiFire := h e (List.mem_cons_self ..)
    subst he
    have hrest : ∀ e ∈ rest, e = HomeEvent.confettiFire := fun e hm =>
      h e (List.mem_cons_of_mem _ hm)
    rw [homeRun_cons]
    have := ih (homeStep s .confettiFire) hrest
    simp only [homeStep] at this ⊢
    by_cases hc : s.confettiArmed <;> simp [hc] at this ⊢ <;> exact this

/-- Once both completion paths are disarmed, no further non-click event can
change the completion counters (or re-arm a completion path). -/
theorem homeRun_quiescent (b : List HomeEvent) :
    ∀ s : HomeState, s.fallbackArmed = false → s.listenerArmed = false →
      (HomeEvent.click ∉ b) →
      (homeRun s b).callbackCalls = s.callbackCalls ∧
      (homeRun s b).navigations = s.navigations := by
  induction b with
  | nil => intro s _ _ _; exact ⟨rfl, rfl⟩
  | cons e rest ih =>
    intro s hf hl hb
    have hbe : e ≠ HomeEvent.click ∧ HomeEvent.click ∉ rest := by
      constructor
      · intro hcontra; exact hb (hcontra ▸ List.mem_cons_self ..)
      · intro hm; exact hb (List.mem_cons_of_mem _ hm)
    rw [homeRun_cons]
    cases e with
    | click => exact absurd rfl hbe.1
    | confettiFire =>
      have hs : (homeStep s .confettiFire).fallbackArmed = false ∧
          (homeStep s .confettiFire).listenerArmed = false ∧
          (homeStep s .confettiFire).callbackCalls = s.callbackCalls ∧
          (homeStep s .confettiFire).navigations = s.navigations := by
        simp only [homeStep]
        by_cases hc : s.confettiArmed <;> simp [hc, hf, hl]
      have := ih _ hs.1 hs.2.1 hbe.2
      omega
    | fallbackFire =>
      have hs : homeStep s .fallbackFire = s := by
        simp [homeStep, hf]
      rw [hs]
      exact ih s hf hl hbe.2
    | animEnd name =>
      have hs : homeStep s (.animEnd name) = s := by
        simp [homeStep, hl]
      rw [hs]
      exact ih s hf hl hbe.2

/-- As `homeRun_quiescent`, but the listener may still be armed, provided no
lid `animationend` event is delivered: with the fallback disarmed, the
completion counters still cannot change. -/
theorem homeRun_quiescent_nolid (b : List HomeEvent) :
    ∀ s : HomeState, s.fallbackArmed = false →
      (HomeEvent.click ∉ b) →
      (∀ n, HomeEvent.animEnd n ∈ b → n ≠ "lidFlipOpen") →
      (homeRun s b).callbackCalls = s.callbackCalls ∧
      (homeRun s b).navigations = s.navigations := by
  induction b with
  | nil => intro s _ _ _; exact ⟨rfl, rfl⟩
  | cons e rest ih =>
    intro s hf hb hlid
    have hbrest : HomeEvent.click ∉ rest := fun hm =>
      hb (List.mem_cons_of_mem _ hm)
    have hlidrest : ∀ n, HomeEvent.animEnd n ∈ rest → n ≠ "lidFlipOpen" :=
      fun n hm => hlid n (List.mem_cons_of_mem _ hm)
    rw [homeRun_cons]
    cases e with
    | click => exact absurd (List.mem_cons_self ..) hb
    | confettiFire =>
      have hs : (homeStep s .confettiFire).fallbackArmed = false ∧
          (homeStep s .confettiFire).callbackCalls = s.callbackCalls ∧
          (homeStep s .confettiFire).navigations = s.navigations := by
        simp only [homeStep]
        by_cases hc : s.confettiArmed <;> simp [hc, hf]
      have := ih _ hs.1 hbrest hlidrest
      omega
    | fallbackFire =>
      have hs : homeStep s .fallbackFire = s := by simp [homeStep, hf]
      rw [hs]; exact ih s hf hbrest hlidrest
    | animEnd name =>
      have hn : name ≠ "lidFlipOpen" := hlid name (List.mem_cons_self ..)
      have hs : (homeStep s (.animEnd name)).fallbackArmed = false ∧
          (homeStep s (.animEnd name)).callbackCalls = s.callbackCalls ∧
          (homeStep s (.animEnd name)).navigations = s.navigations := by
        simp only [homeStep]
        by_cases hl : s.listenerArmed <;> simp [hl, hn, hf]
      have := ih _ hs.1 hbrest hlidrest
      omega

theorem homeRun_singleton (s : HomeState) (e : HomeEvent) :
    homeRun s [e] = homeStep s e := rfl

/-- Claim C1, counterexample.  The claim asserts that whichever completion
path runs second performs no additional navigation or callback.  But if the
fallback timer fires first (at 2600ms) and the lid `animationend` event for
`lidFlipOpen` is delivered afterwards, the `once: true` listener is still
armed (the fallback clears neither the listener nor re-checks the
re-entrancy flag), so the callback and the navigation each run twice. -/
theorem claim1_counterexample :
    (homeRun initialHome [HomeEvent.click, HomeEvent.fallbackFire,
        HomeEvent.animEnd "lidFlipOpen"]).navigations = 2 ∧
    (homeRun initialHome [HomeEvent.click, HomeEvent.fallbackFire,
        HomeEvent.animEnd "lidFlipOpen"]).callbackCalls = 2 := by
  decide

/-- Claim C1, amended: for a single activation of the opening view, the
completion callback and the navigation are invoked exactly once in total in
the two scenarios the spec names — the lid animation-end event fires before
the fallback timer (the listener clears the timer, which then never fires),
or only the fallback timer fires (no lid animation-end is ever delivered) —
but not when a lid animation-end arrives after the fallback has already
fired.  `a` is whatever the confetti timer does before the first completion
event; `b` is anything delivered afterwards within this activation. -/
theorem homeStep_animEnd_lid_fields (s : HomeState) (h : s.listenerArmed = true) :
    (homeStep s (.animEnd "lidFlipOpen")).fallbackArmed = false ∧
    (homeStep s (.animEnd "lidFlipOpen")).listenerArmed = false ∧
    (homeStep s (.animEnd "lidFlipOpen")).callbackCalls = s.callbackCalls + 1 ∧
    (homeStep s (.animEnd "lidFlipOpen")).navigations = s.navigations + 1 := by
  simp [homeStep, h]

theorem homeStep_fallbackFire_fields (s : HomeState) (h : s.fallbackArmed = true) :
    (homeStep s .fallbackFire).fallbackArmed = false ∧
    (homeStep s .fallbackFire).callbackCalls = s.callbackCalls + 1 ∧
    (homeStep s .fallbackFire).navigations = s.navigations + 1 := by
  simp [homeStep, h]

theorem claim1_single_completion (a b : List HomeEvent)
    (ha : ∀ e ∈ a, e = HomeEvent.confettiFire)
    (hb : HomeEvent.click ∉ b) :
    ((homeRun initialHome
        (HomeEvent.click :: a ++ [HomeEvent.animEnd "lidFlipOpen"] ++ b)).navigations = 1 ∧
     (homeRun initialHome
        (HomeEvent.click :: a ++ [HomeEvent.animEnd "lidFlipOpen"] ++ b)).callbackCalls = 1) ∧
    ((∀ n, HomeEvent.animEnd n ∈ b → n ≠ "lidFlipOpen") →
     (homeRun initialHome
        (HomeEvent.click :: a ++ [HomeEvent.fallbackFire] ++ b)).navigations = 1 ∧
     (homeRun initialHome
        (HomeEvent.click :: a ++ [HomeEvent.fallbackFire] ++ b)).callbackCalls = 1) := by
  have hs1fb : (homeStep initialHome .click).fallbackArmed = true := rfl
  have hs1li : (homeStep initialHome .click).listenerArmed = true := rfl
  have hs1cb : (homeStep initialHome .click).callbackCalls = 0 := rfl
  have hs1nv : (homeStep initialHome .click).navigations = 0 := rfl
  obtain ⟨h2an, h2fb, h2li, h2cb, h2nv⟩ :=
    homeRun_confetti_only a (homeStep initialHome .click) ha
  have hfb : (homeRun (homeStep initialHome .click) a).fallbackArmed = true :=
    h2fb.trans hs1fb
  have hli : (homeRun (homeStep initialHome .click) a).listenerArmed = true :=
    h2li.trans hs1li
  have hcb : (homeRun (homeStep initialHome .click) a).callbackCalls = 0 :=
    h2cb.trans hs1cb
  have hnv : (homeRun (homeStep initialHome .click) a).navigations = 0 :=
    h2nv.trans hs1nv
  constructor
  · -- lid animation-end fires first: it clears the fallback timer
    rw [homeRun_append, homeRun_append, homeRun_singleton, homeRun_cons]
    obtain ⟨h3fb, h3li, h3cb, h3nv⟩ :=
      homeStep_animEnd_lid_fields (homeRun (homeStep initialHome .click) a) hli
    have hq := homeRun_quiescent b _ h3fb h3li hb
    omega
  · -- only the fallback fires: no lid animation-end is delivered afterwards
    intro hlid
    rw [homeRun_append, homeRun_append, homeRun_singleton, homeRun_cons]
    obtain ⟨h3fb, h3cb, h3nv⟩ :=
      homeStep_fallbackFire_fields (homeRun (homeStep initialHome .click) a) hfb
    have hq := homeRun_quiescent_nolid b _ h3fb hb hlid
    omega

/-- Witness for `claim1_single_completion` at a concrete activation: the
confetti timer fires, then the lid animation-end completes the opening, and
the (already cleared) fallback delivery afterwards is a no-op. -/
theorem claim1_single_completion_witness :
    (homeRun initialHome [HomeEvent.click, HomeEvent.confettiFire,
        HomeEvent.animEnd "lidFlipOpen", HomeEvent.fallbackFire]).navigations = 1 := by
  have h := claim1_single_completion [HomeEvent.confettiFire] [HomeEvent.fallbackFire]
    (by intro e he; simpa using he)
    (by intro hmem; simp at hmem)
  exact h.1.1

/-- Claim C2: a second activation of the opening view while the re-entrancy
flag (`animatingRef`) is set changes nothing at all — same state, hence no
additional navigation, completion callback, or confetti-class toggle
(`handleGiftClick` returns immediately when `animatingRef.current` is set). -/
theorem claim2_reentrancy_noop (s : HomeState) (h : s.animating = true) :
    homeStep s .click = s := by
  simp [homeStep, h]

/-- Witness for `claim2_reentrancy_noop`: immediately after a first
activation the flag is set, and a second click leaves the state unchanged. -/
theorem claim2_reentrancy_noop_witness :
    (homeStep initialHome .click).animating = true ∧
    homeStep (homeStep initialHome .click) .click = homeStep initialHome .click :=
  ⟨rfl, claim2_reentrancy_noop _ rfl⟩

/-! ## Celebration view (`celebration.jsx`, `SecondPage`) — reveal sequencer

The reveal choreography effect (celebration.jsx lines 269–289) arms four
timeouts on mount, each calling `setSequenceState`:
`t1 = setTimeout(.. "image", 100)`, `t2 = setTimeout(.. "heading", 520)`,
`t3 = setTimeout(.. "typing", 900)` (which also calls `startTyping()`),
`t4 = setTimeout(.. "done", 2000)` (which also triggers confetti).
`sequenceState` starts as `"init"` (`useState("init")`).  Since the delays
are strictly increasing, the event loop fires the timers in list order; the
state at `t` milliseconds after mount is the value written by the last timer
whose delay has elapsed. -/

inductive Stage where
  | init
  | image
  | heading
  | typing
  | done
deriving DecidableEq, Repr

/-- The four reveal timeouts of the mount effect, in the order they are
armed: (delay in ms, stage written). -/
def revealTimers : List (Nat × Stage) :=
  [(100, .image), (520, .heading), (900, .typing), (2000, .done)]

/-- Value of `sequenceState` at `t` ms after mount (no early unmount):
start at `init`, then let every timer whose delay has elapsed overwrite it,
in firing order. -/
def stageAt (t : Nat) : Stage :=
  revealTimers.foldl (fun acc p => if p.1 ≤ t then p.2 else acc) Stage.init

/-- Position of a stage in the intended `init → image → heading → typing →
done` order. -/
def stageIdx : Stage → Nat
  | .init => 0
  | .image => 1
  | .heading => 2
  | .typing => 3
  | .done => 4

theorem stageAt_closed (t : Nat) :
    stageAt t = if 2000 ≤ t then .done else if 900 ≤ t then .typing
      else if 520 ≤ t then .heading else if 100 ≤ t then .image
      else .init := rfl

/-- Claim C3: over a mount of the celebration view that is not unmounted
early, the reveal-sequence stage takes exactly the values
`init, image, heading, typing, done` in that order — the stage index is
monotone in elapsed time (so no stage is revisited), every transition
happens exactly at the scheduled offsets +100ms, +520ms, +900ms, +2000ms
from mount, and no user input is involved (the stage is a function of
elapsed time alone). -/
theorem claim3_reveal_sequence :
    (∀ t t' : Nat, t ≤ t' → stageIdx (stageAt t) ≤ stageIdx (stageAt t')) ∧
    (stageAt 0 = .init ∧ stageAt 99 = .init ∧
     stageAt 100 = .image ∧ stageAt 519 = .image ∧
     stageAt 520 = .heading ∧ stageAt 899 = .heading ∧
     stageAt 900 = .typing ∧ stageAt 1999 = .typing ∧
     stageAt 2000 = .done) ∧
    (∀ t : Nat, 2000 ≤ t → stageAt t = .done) := by
  refine ⟨?_, by decide, ?_⟩
  · intro t t' h
    rw [stageAt_closed t, stageAt_closed t']
    split_ifs <;> simp [stageIdx] <;> omega
  · intro t h
    rw [stageAt_closed t]
    simp [h]

/-- Witness for `claim3_reveal_sequence`: the monotonicity clause at a
concrete pair of instants, 0 ≤ 2000 ms. -/
theorem claim3_reveal_sequence_witness :
    stageIdx (stageAt 0) ≤ stageIdx (stageAt 2000) :=
  claim3_reveal_sequence.1 0 2000 (by decide)

/-! ## Celebration view — typewriter effect (`startTyping` / `stopTyping`)

`startTyping` (celebration.jsx lines 292–303) resets `typingIndex` to 0 and
`typedText` to `""`, then arms a 35ms `setInterval` whose tick does
`typingIndex += 1; setTypedText(personalMessage.slice(0, typingIndex))` and
clears the interval once `typingIndex >= personalMessage.length`.  It is
called exactly once, by the +900ms reveal timeout.  The JS string is
modelled as a `List Char`; `slice(0, k)` is `List.take k`. -/

structure TypingState where
  idx : Nat
  running : Bool
deriving DecidableEq, Repr

/-- One tick of the `startTyping` interval: while the interval is live,
increment the index; the interval is cleared (`stopTyping`) when the index
has reached the message length. -/
def typingTick (len : Nat) (st : TypingState) : TypingState :=
  if st.running then
    { idx := st.idx + 1, running := ¬(len ≤ st.idx + 1) }
  else st

/-- Typing state after `k` interval ticks, starting from the reset state
`startTyping` establishes (`typingIndex = 0`, interval live). -/
def typingAfter (len : Nat) : Nat → TypingState
  | 0 => { idx := 0, running := true }
  | k + 1 => typingTick len (typingAfter len k)

/-- Number of interval ticks that have fired by `t` ms after mount: typing
starts at +900ms, and the 35ms interval's tick `k` fires at `900 + 35k`. -/
def typingTicksAt (t : Nat) : Nat :=
  if t < 900 then 0 else (t - 900) / 35

/-- The value of `typingIndex` at `t` ms after mount. -/
def typedIndexAt (len t : Nat) : Nat :=
  (typingAfter len (typingTicksAt t)).idx

/-- The value of `typedText` at `t` ms after mount:
`personalMessage.slice(0, typingIndex)`. -/
def typedTextAt (msg : List Char) (t : Nat) : List Char :=
  msg.take (typedIndexAt msg.length t)

/-- The `personalMessage` default prop of `SecondPage`
(celebration.jsx line 240). -/
def defaultPersonalMessage : String :=
  "Wishing you a day filled with love, laughter, and all the little joys that make life beautiful."

theorem typingAfter_idx (len : Nat) : ∀ k : Nat,
    (typingAfter len k).idx = min k (max len 1) ∧
    ((typingAfter len k).running = true ↔ k < max len 1) := by
  intro k
  induction k with
  | zero =>
    refine ⟨by simp [typingAfter], ?_, fun _ => rfl⟩
    intro _
    omega
  | succ k ih =>
    obtain ⟨ih1, ih2⟩ := ih
    simp only [typingAfter, typingTick]
    by_cases hr : (typingAfter len k).running = true
    · have hk := ih2.mp hr
      simp [hr, ih1, decide_eq_true_eq] <;> omega
    · have hr' : (typingAfter len k).running = false := by
        cases h : (typingAfter len k).running
        · rfl
        · exact absurd h hr
      have hk : ¬ k < max len 1 := fun hcon => hr (ih2.mpr hcon)
      simp [hr', ih1] <;> omega

theorem typedIndexAt_eq (len t : Nat) :
    typedIndexAt len t = min (typingTicksAt t) (max len 1) :=
  (typingAfter_idx len (typingTicksAt t)).1

theorem typingTicksAt_mono {t t' : Nat} (h : t ≤ t') :
    typingTicksAt t ≤ typingTicksAt t' := by
  unfold typingTicksAt
  split_ifs with h1 h2 h2
  · exact le_rfl
  · exact Nat.zero_le _
  · omega
  · exact Nat.div_le_div_right (Nat.sub_le_sub_right h 900)

set_option maxRecDepth 4000 in
/-- Claim C4, counterexample.  The claim says that at the moment the stage
variable reaches `done` (+2000ms from mount), the typed substring already
has the full personal-message length.  But typing starts at +900ms and has
produced only `(2000 - 900) / 35 = 31` characters by then, while the
component's `personalMessage` is 95 characters long; the interval keeps
typing long after the `done` stage is entered. -/
theorem claim4_counterexample :
    stageAt 2000 = Stage.done ∧
    (typedTextAt defaultPersonalMessage.toList 2000).length = 31 ∧
    defaultPersonalMessage.toList.length = 95 ∧
    (typedTextAt defaultPersonalMessage.toList 2000).length ≠
      defaultPersonalMessage.toList.length := by
  refine ⟨rfl, ?_, ?_, ?_⟩ <;> decide

/-- Claim C4, amended: over any execution of the celebration view, the
length of the progressively-typed substring is monotonically non-decreasing
in elapsed time, and it equals the full personal-message length once typing
has completed — i.e. from `900 + 35·length` ms after mount onward — which
for messages longer than 31 characters is after, not at, the moment the
stage variable reaches `done`. -/
theorem claim4_typed_length (msg : List Char) (t t' : Nat) (h : t ≤ t') :
    (typedTextAt msg t).length ≤ (typedTextAt msg t').length ∧
    (900 + 35 * msg.length ≤ t' → (typedTextAt msg t').length = msg.length) := by
  have hmono := typingTicksAt_mono h
  have e1 : (typedTextAt msg t).length = min (typedIndexAt msg.length t) msg.length := by
    simp [typedTextAt]
  have e2 : (typedTextAt msg t').length = min (typedIndexAt msg.length t') msg.length := by
    simp [typedTextAt]
  rw [e1, e2, typedIndexAt_eq, typedIndexAt_eq]
  constructor
  · omega
  · intro hc
    have hticks : msg.length ≤ typingTicksAt t' := by
      have ht' : ¬ t' < 900 := by omega
      unfold typingTicksAt
      rw [if_neg ht']
      rw [Nat.le_div_iff_mul_le (by omega)]
      omega
    omega

/-- Witness for `claim4_typed_length` at the two-character message `"hi"`
between 0ms and 1000ms (typing of `"hi"` completes at 970ms). -/
theorem claim4_typed_length_witness :
    (typedTextAt ['h', 'i'] 0).length ≤ (typedTextAt ['h', 'i'] 1000).length ∧
    (typedTextAt ['h', 'i'] 1000).length = 2 := by
  have h := claim4_typed_length ['h', 'i'] 0 1000 (by omega)
  exact ⟨h.1, h.2 (by norm_num)⟩

/-- Claim C10: at every instant of the celebration view's lifetime, the
displayed typed text is the personal message truncated to the current
typing index (that is how each tick computes it), hence always a prefix of
the message — no characters outside the message and none out of order. -/
theorem claim10_typed_text_prefix (msg : List Char) (t : Nat) :
    typedTextAt msg t = msg.take (typedIndexAt msg.length t) ∧
    typedTextAt msg t <+: msg := by
  unfold typedTextAt
  exact ⟨rfl, List.take_prefix _ _⟩

/-! ## Celebration view — audio autoplay negotiation

The `<audio>` element is modelled by its `muted` and `paused` properties;
the component's audio-related state by `isMuted`, `showPlayPrompt` and
`audioPlaying`.  A call to `audio.play()` either resolves (the element
becomes un-paused) or rejects (it stays paused); which of the two happens
is the platform's choice and is passed in as a boolean `playOk`. -/

structure AudioEl where
  muted : Bool
  paused : Bool
deriving DecidableEq, Repr

structure CelebAudio where
  audio : AudioEl
  isMuted : Bool
  showPlayPrompt : Bool
  audioPlaying : Bool
deriving DecidableEq, Repr

/-- The audio element the autoplay attempt is issued on: `tryMutedAutoplay`
first sets `audio.muted = true` (celebration.jsx line 327), so the playback
attempt is always made muted. -/
def autoplayAttemptAudio (s : CelebAudio) : AudioEl :=
  { s.audio with muted := true }

/-- Translation of `tryMutedAutoplay` (celebration.jsx lines 325–356).
`playOk` is whether the muted `audio.play()` resolves; `cancelled` is the
cleanup flag set on unmount.  On resolution: if the effect was cancelled,
nothing further happens; otherwise, if the user has not chosen mute, the
audio is unmuted, `audioPlaying` is set and the prompt hidden; if the user
has chosen mute, the audio stays muted, `audioPlaying` is recomputed as
`!audio.paused && !audio.muted` and the prompt hidden.  On rejection the
prompt is shown and `audioPlaying` cleared; the error is swallowed. -/
def tryMutedAutoplay (s : CelebAudio) (playOk cancelled : Bool) : CelebAudio :=
  let a := autoplayAttemptAudio s
  if playOk then
    let a := { a with paused := false }
    if cancelled then { s with audio := a }
    else if !s.isMuted then
      { s with audio := { a with muted := false },
               audioPlaying := true, showPlayPrompt := false }
    else
      { s with audio := a,
               audioPlaying := !a.paused && !a.muted, showPlayPrompt := false }
  else
    { s with audio := a, showPlayPrompt := true, audioPlaying := false }

/-- Claim C5: the autoplay negotiation attempts playback muted; if the muted
attempt succeeds and the user has not chosen mute, the audio is unmuted,
`audioPlaying` is set and the prompt hidden; if it fails, the prompt is made
visible and `audioPlaying` cleared, with no error surfaced
(`tryMutedAutoplay` is total: rejection only toggles the two flags).  The
negotiation runs once per mount, keyed off the audio source — the effect's
dependency array is `[birthdaySongFilename]` — which the model reflects by
evaluating it as a single transition. -/
theorem claim5_autoplay_negotiation (s : CelebAudio) (h : s.isMuted = false) :
    (autoplayAttemptAudio s).muted = true ∧
    ((tryMutedAutoplay s true false).audio.muted = false ∧
     (tryMutedAutoplay s true false).audioPlaying = true ∧
     (tryMutedAutoplay s true false).showPlayPrompt = false) ∧
    ((tryMutedAutoplay s false false).showPlayPrompt = true ∧
     (tryMutedAutoplay s false false).audioPlaying = false) := by
  refine ⟨rfl, ?_, rfl, rfl⟩
  simp [tryMutedAutoplay, h]

/-- Witness for `claim5_autoplay_negotiation` at a concrete just-mounted
state (paused, unmuted, no prompt). -/
theorem claim5_autoplay_negotiation_witness :
    (tryMutedAutoplay
      { audio := { muted := false, paused := true },
        isMuted := false, showPlayPrompt := false, audioPlaying := false }
      true false).audioPlaying = true :=
  (claim5_autoplay_negotiation
    { audio := { muted := false, paused := true },
      isMuted := false, showPlayPrompt := false, audioPlaying := false }
    rfl).2.1.2.1

/-- Translation of `onUserGesture` (celebration.jsx lines 402–413): sync
`audio.muted` to `isMuted`, attempt `audio.play()`; on resolution hide the
prompt and set `audioPlaying` to `!audio.muted`; on rejection keep the
prompt visible. -/
def onUserGesture (s : CelebAudio) (playOk : Bool) : CelebAudio :=
  let a := { s.audio with muted := s.isMuted }
  if playOk then
    { s with audio := { a with paused := false },
             showPlayPrompt := false, audioPlaying := !a.muted }
  else
    { s with audio := a, showPlayPrompt := true }

/-- The gesture-effect instance (celebration.jsx lines 400–420): when the
prompt is visible it registers `once: true` `click` and `touchstart`
listeners on the document; a user interaction consumes them and runs
`onUserGesture` once.  `playAttempts` counts `audio.play()` calls made by
this handler. -/
structure GestureState where
  core : CelebAudio
  listenerArmed : Bool
  playAttempts : Nat
deriving DecidableEq, Repr

/-- Delivering one user interaction (pointer click or touch) to the
document: if the once-listeners are still armed they are consumed and
`onUserGesture` runs (one playback attempt); otherwise nothing happens. -/
def gestureStep (g : GestureState) (playOk : Bool) : GestureState :=
  if g.listenerArmed then
    { core := onUserGesture g.core playOk, listenerArmed := false,
      playAttempts := g.playAttempts + 1 }
  else g

/-- Claim C6: with the play prompt visible (and the gesture effect's
once-listeners therefore armed), the first interaction triggers exactly one
new playback attempt — the prompt is dismissed if the attempt succeeds and
stays visible if it fails — and a further interaction delivered to the
already-consumed listeners changes nothing. -/
theorem claim6_gesture_retry (g : GestureState)
    (harm : g.listenerArmed = true) (hvis : g.core.showPlayPrompt = true) :
    (∀ playOk : Bool, (gestureStep g playOk).playAttempts = g.playAttempts + 1) ∧
    (gestureStep g true).core.showPlayPrompt = false ∧
    (gestureStep g false).core.showPlayPrompt = true ∧
    (∀ playOk playOk' : Bool,
      gestureStep (gestureStep g playOk) playOk' = gestureStep g playOk) := by
  refine ⟨fun playOk => by simp [gestureStep, harm], ?_, ?_, ?_⟩
  · simp [gestureStep, harm, onUserGesture]
  · simp [gestureStep, harm, onUserGesture, hvis]
  · intro playOk playOk'
    simp [gestureStep, harm]

/-- Witness for `claim6_gesture_retry`: a prompt-visible state whose first
gesture's playback attempt succeeds. -/
theorem claim6_gesture_retry_witness :
    (gestureStep
      { core := { audio := { muted := true, paused := true },
                  isMuted := false, showPlayPrompt := true,
                  audioPlaying := false },
        listenerArmed := true, playAttempts := 0 }
      true).core.showPlayPrompt = false :=
  (claim6_gesture_retry
    { core := { audio := { muted := true, paused := true },
                isMuted := false, showPlayPrompt := true,
                audioPlaying := false },
      listenerArmed := true, playAttempts := 0 }
    rfl rfl).2.1

/-- Translation of the `isMuted` sync effect (celebration.jsx lines
370–384), which runs whenever the mute flag changes to `newMuted`:
`audio.muted` is synced; if the flag is now unmuted and the audio is paused,
`audio.play()` is attempted — on resolution `audioPlaying` is set, on
rejection the prompt is re-armed and `audioPlaying` cleared; otherwise no
play attempt is made and `audioPlaying` is recomputed.  The returned boolean
reports whether a playback attempt was made. -/
def muteSyncEffect (s : CelebAudio) (newMuted playOk : Bool) :
    CelebAudio × Bool :=
  let s := { s with isMuted := newMuted }
  let a := { s.audio with muted := newMuted }
  if !newMuted && a.paused then
    if playOk then
      ({ s with audio := { a with paused := false }, audioPlaying := true }, true)
    else
      ({ s with audio := a, showPlayPrompt := true, audioPlaying := false }, true)
  else
    ({ s with audio := a, audioPlaying := !a.paused && !a.muted }, false)

/-- Claim C7, counterexample.  The claim says toggling the mute flag while
the audio is paused triggers a playback attempt; but toggling it to muted
(`isMuted` becomes `true`) while paused makes no play attempt at all — the
effect only attempts playback when the new value is unmuted. -/
theorem claim7_counterexample :
    (muteSyncEffect
      { audio := { muted := false, paused := true },
        isMuted := false, showPlayPrompt := false, audioPlaying := false }
      true true).2 = false := by
  decide

/-- Claim C7, amended: toggling the mute flag to unmuted while the audio is
paused triggers a playback attempt, re-arming the prompt if that attempt
fails; and toggling the mute flag (either way) while the audio is playing
makes no play attempt and does not stop playback (the element stays
un-paused; the effect never calls `pause()`). -/
theorem claim7_mute_toggle (s : CelebAudio) (newMuted playOk : Bool) :
    (s.audio.paused = true →
      (muteSyncEffect s false playOk).2 = true ∧
      (playOk = false →
        (muteSyncEffect s false playOk).1.showPlayPrompt = true ∧
        (muteSyncEffect s false playOk).1.audioPlaying = false)) ∧
    (s.audio.paused = false →
      (muteSyncEffect s newMuted playOk).2 = false ∧
      (muteSyncEffect s newMuted playOk).1.audio.paused = false) := by
  constructor
  · intro hp
    constructor
    · simp [muteSyncEffect, hp]
      split <;> rfl
    · intro hfail
      subst hfail
      simp [muteSyncEffect, hp]
  · intro hp
    cases newMuted <;> simp [muteSyncEffect, hp]

/-- Witness for `claim7_mute_toggle`: unmuting while paused with a failing
play attempt re-arms the prompt; and with the audio playing, a toggle makes
no attempt and leaves it playing. -/
theorem claim7_mute_toggle_witness :
    ((muteSyncEffect
        { audio := { muted := true, paused := true },
          isMuted := true, showPlayPrompt := false, audioPlaying := false }
        false false).1.showPlayPrompt = true) ∧
    ((muteSyncEffect
        { audio := { muted := false, paused := false },
          isMuted := false, showPlayPrompt := false, audioPlaying := true }
        true true).1.audio.paused = false) :=
  ⟨((claim7_mute_toggle
      { audio := { muted := true, paused := true },
        isMuted := true, showPlayPrompt := false, audioPlaying := false }
      false false).1 rfl).2 rfl |>.1,
   ((claim7_mute_toggle
      { audio := { muted := false, paused := false },
        isMuted := false, showPlayPrompt := false, audioPlaying := true }
      true true).2 rfl).2⟩

/-! ## Celebration view — lifecycle and unmount cancellation

Timer/listener/promise bookkeeping of one `SecondPage` mount.  The reveal
effect arms four timeouts (cleanup: `clearTimeout` × 4 and `stopTyping`);
the autoplay effect arms the 120ms delay `t` (cleanup: `cancelled = true`
and `clearTimeout(t)`); the keyboard effect adds a `keydown` listener
(cleanup removes it); the gesture effect's listeners are armed only while
the prompt is visible; the image-tap handler lives on the photo element, so
it can only fire while the view is mounted.

Four handlers call `audio.play()` and attach continuations to the returned
promise, and those continuations are what survives unmount:
* `tryMutedAutoplay` (lines 325–356): the success continuation after
  `await p` is guarded by `if (cancelled) return`, but the `catch` branch
  calls `setShowPlayPrompt(true)` / `setAudioPlaying(false)` unguarded;
* the `isMuted` sync effect (lines 370–384): when the flag turns unmuted
  with the audio paused it calls `audio.play()`, and both its `.then`
  (`setAudioPlaying(true)`) and `.catch` (`setShowPlayPrompt(true)`,
  `setAudioPlaying(false)`) are unguarded;
* `onUserGesture` (lines 402–413): both `.then` (`setShowPlayPrompt(false)`,
  `setAudioPlaying(...)`) and `.catch` (`setShowPlayPrompt(true)`) are
  unguarded;
* `onImageTap` (lines 434–450): calls `audio.play()` with no `setState` at
  all, but its `.catch` retries `audio.play()` (whose own catch is empty),
  so a rejection settling after unmount issues a further play call.

Each source gets a pending flag for its in-flight promise (a second call
from the same source while one is pending re-uses the flag).
`postUnmountUpdates` counts `setState` calls made while unmounted,
`playCalls` counts `audio.play()` invocations, and `postUnmountPlayCalls`
those made while unmounted. -/

structure CelebView where
  mounted : Bool
  revealPending : Nat
  typingArmed : Bool
  autoplayDelayArmed : Bool
  keydownArmed : Bool
  gestureArmed : Bool
  autoplayPending : Bool
  muteSyncPending : Bool
  gesturePending : Bool
  imageTapPending : Bool
  cancelled : Bool
  playCalls : Nat
  stateUpdates : Nat
  postUnmountUpdates : Nat
  postUnmountPlayCalls : Nat
deriving DecidableEq, Repr

/-- The state right after mount: four reveal timeouts pending, the autoplay
delay armed, the keydown listener installed; typing starts only when the
third reveal timeout fires; gesture listeners only when the prompt shows. -/
def mountedCeleb : CelebView :=
  { mounted := true, revealPending := 4, typingArmed := false,
    autoplayDelayArmed := true, keydownArmed := true, gestureArmed := false,
    autoplayPending := false, muteSyncPending := false,
    gesturePending := false, imageTapPending := false, cancelled := false,
    playCalls := 0, stateUpdates := 0, postUnmountUpdates := 0,
    postUnmountPlayCalls := 0 }

/-- A mount on which the autoplay negotiation has failed, so the play
prompt is visible and the gesture effect's once-listeners are armed. -/
def promptedCeleb : CelebView :=
  { mountedCeleb with gestureArmed := true }

/-- Events of a `SecondPage` mount's event loop.  `keydown playAttempt`
is a KeyM press together with the `isMuted` sync effect the resulting
re-render runs: `playAttempt` says whether that effect's
`!isMuted && audio.paused` condition held, i.e. whether it called
`audio.play()`.  The `...Resolve` / `...Reject` events are the settlement
of the corresponding handler's in-flight `audio.play()` promise. -/
inductive CelebEvent where
  | revealFire
  | typingTick
  | autoplayDelayFire
  | autoplayResolve
  | autoplayReject
  | keydown (playAttempt : Bool)
  | muteSyncResolve
  | muteSyncReject
  | gesture
  | gestureResolve
  | gestureReject
  | imageTap
  | imageTapResolve
  | imageTapReject
  | unmount
deriving DecidableEq, Repr

/-- Record a `setState` call in `s`: it counts as a post-unmount update when
the component is no longer mounted. -/
def recordUpdate (s : CelebView) : CelebView :=
  { s with stateUpdates := s.stateUpdates + 1,
           postUnmountUpdates :=
             if s.mounted then s.postUnmountUpdates
             else s.postUnmountUpdates + 1 }

/-- Record an `audio.play()` call in `s`: it counts as a post-unmount play
call when the component is no longer mounted. -/
def recordPlayCall (s : CelebView) : CelebView :=
  { s with playCalls := s.playCalls + 1,
           postUnmountPlayCalls :=
             if s.mounted then s.postUnmountPlayCalls
             else s.postUnmountPlayCalls + 1 }

/-- Transition function for the celebration view's lifecycle, translated
from `SecondPage` (celebration.jsx lines 269–289, 311–367, 370–384,
387–397, 400–420, 434–450).  Cleared timers / removed listeners are
represented by their guard being down, making delivery a no-op.  `unmount`
runs every effect cleanup: the four `clearTimeout`s and `stopTyping`,
`cancelled = true` plus `clearTimeout(t)`, and the listener removals —
but unsettled promises keep their continuations.  Only
`autoplayResolve` checks `cancelled` (`if (cancelled) return`); the other
settlement continuations run unconditionally, and `imageTapReject` retries
`audio.play()`. -/
def celebStep (s : CelebView) : CelebEvent → CelebView
  | .revealFire =>
    if 0 < s.revealPending then
      let s := recordUpdate s
      { s with revealPending := s.revealPending - 1,
               typingArmed := if s.revealPending = 2 then true else s.typingArmed }
    else s
  | .typingTick =>
    if s.typingArmed then recordUpdate s else s
  | .autoplayDelayFire =>
    if s.autoplayDelayArmed then
      recordPlayCall { s with autoplayDelayArmed := false,
                              autoplayPending := true }
    else s
  | .autoplayResolve =>
    if s.autoplayPending then
      let s := { s with autoplayPending := false }
      if s.cancelled then s else recordUpdate s
    else s
  | .autoplayReject =>
    if s.autoplayPending then recordUpdate { s with autoplayPending := false }
    else s
  | .keydown playAttempt =>
    if s.keydownArmed then
      let s := recordUpdate s
      if playAttempt then recordPlayCall { s with muteSyncPending := true }
      else s
    else s
  | .muteSyncResolve =>
    if s.muteSyncPending then recordUpdate { s with muteSyncPending := false }
    else s
  | .muteSyncReject =>
    if s.muteSyncPending then recordUpdate { s with muteSyncPending := false }
    else s
  | .gesture =>
    if s.gestureArmed then
      recordPlayCall { s with gestureArmed := false, gesturePending := true }
    else s
  | .gestureResolve =>
    if s.gesturePending then recordUpdate { s with gesturePending := false }
    else s
  | .gestureReject =>
    if s.gesturePending then recordUpdate { s with gesturePending := false }
    else s
  | .imageTap =>
    if s.mounted then
      recordPlayCall { s with imageTapPending := true }
    else s
  | .imageTapResolve =>
    if s.imageTapPending then { s with imageTapPending := false } else s
  | .imageTapReject =>
    if s.imageTapPending then
      recordPlayCall { s with imageTapPending := false }
    else s
  | .unmount =>
    if s.mounted then
      { s with mounted := false, revealPending := 0, typingArmed := false,
               autoplayDelayArmed := false, cancelled := true,
               keydownArmed := false, gestureArmed := false }
    else s

def celebRun (s : CelebView) (evs : List CelebEvent) : CelebView :=
  evs.foldl celebStep s

theorem celebRun_cons (s : CelebView) (e : CelebEvent) (evs : List CelebEvent) :
    celebRun s (e :: evs) = celebRun (celebStep s e) evs := rfl

/-- The promise continuations that run without any cancellation guard: the
autoplay `catch`, both mute-sync continuations, both gesture continuations,
and the image-tap `catch` (which issues a further play call). -/
def unguardedContinuation : CelebEvent → Bool
  | .autoplayReject => true
  | .muteSyncResolve => true
  | .muteSyncReject => true
  | .gestureResolve => true
  | .gestureReject => true
  | .imageTapReject => true
  | _ => false

/-- Quiescence after unmount: all timer guards down, listeners removed, the
cancellation flag set (in-flight promises may remain pending). -/
def Quiesced (s : CelebView) : Prop :=
  s.mounted = false ∧ s.revealPending = 0 ∧ s.typingArmed = false ∧
  s.autoplayDelayArmed = false ∧ s.keydownArmed = false ∧
  s.gestureArmed = false ∧ s.cancelled = true

theorem quiesced_step (s : CelebView) (e : CelebEvent)
    (hq : Quiesced s) (hne : unguardedContinuation e = false) :
    Quiesced (celebStep s e) ∧
    (celebStep s e).postUnmountUpdates = s.postUnmountUpdates ∧
    (celebStep s e).playCalls = s.playCalls := by
  obtain ⟨hm, hr, ht, ha, hk, hg, hc⟩ := hq
  cases e with
  | revealFire =>
    simp [celebStep, hr, Quiesced, hm, ht, ha, hk, hg, hc]
  | typingTick =>
    simp [celebStep, ht, Quiesced, hm, hr, ha, hk, hg, hc]
  | autoplayDelayFire =>
    simp [celebStep, ha, Quiesced, hm, hr, ht, hk, hg, hc]
  | autoplayResolve =>
    by_cases hp : s.autoplayPending = true
    · simp [celebStep, hp, hc, Quiesced, hm, hr, ht, ha, hk, hg]
    · have hp' : s.autoplayPending = false := by
        cases h : s.autoplayPending
        · rfl
        · exact absurd h hp
      simp [celebStep, hp', Quiesced, hm, hr, ht, ha, hk, hg, hc]
  | autoplayReject => simp [unguardedContinuation] at hne
  | keydown playAttempt =>
    simp [celebStep, hk, Quiesced, hm, hr, ht, ha, hg, hc]
  | muteSyncResolve => simp [unguardedContinuation] at hne
  | muteSyncReject => simp [unguardedContinuation] at hne
  | gesture =>
    simp [celebStep, hg, Quiesced, hm, hr, ht, ha, hk, hc]
  | gestureResolve => simp [unguardedContinuation] at hne
  | gestureReject => simp [unguardedContinuation] at hne
  | imageTap =>
    simp [celebStep, hm, Quiesced, hr, ht, ha, hk, hg, hc]
  | imageTapResolve =>
    by_cases hp : s.imageTapPending = true
    · simp [celebStep, hp, Quiesced, hm, hr, ht, ha, hk, hg, hc]
    · have hp' : s.imageTapPending = false := by
        cases h : s.imageTapPending
        · rfl
        · exact absurd h hp
      simp [celebStep, hp', Quiesced, hm, hr, ht, ha, hk, hg, hc]
  | imageTapReject => simp [unguardedContinuation] at hne
  | unmount =>
    simp [celebStep, hm, Quiesced, hr, ht, ha, hk, hg, hc]

theorem quiesced_run (evs : List CelebEvent) :
    ∀ s : CelebView, Quiesced s →
      (∀ e ∈ evs, unguardedContinuation e = false) →
      (celebRun s evs).postUnmountUpdates = s.postUnmountUpdates ∧
      (celebRun s evs).playCalls = s.playCalls := by
  induction evs with
  | nil => intro s _ _; exact ⟨rfl, rfl⟩
  | cons e rest ih =>
    intro s hq hne
    rw [celebRun_cons]
    obtain ⟨hq', hpu, hpc⟩ := quiesced_step s e hq (hne e (List.mem_cons_self ..))
    obtain ⟨ih1, ih2⟩ := ih (celebStep s e) hq'
      (fun e hm => hne e (List.mem_cons_of_mem _ hm))
    exact ⟨ih1.trans hpu, ih2.trans hpc⟩

/-- Claim C8, counterexample.  The claim says no view-state update or audio
play call attributable to the view occurs after unmount.  But the
continuations of `audio.play()` promises in flight at unmount still run:
the autoplay attempt's `catch`, the mute-sync effect's `.then`/`.catch`
and `onUserGesture`'s `.then`/`.catch` all update state without a
cancellation guard, and `onImageTap`'s `.catch` even issues a further
`audio.play()` call — each exhibited here by a concrete trace that starts
the attempt, unmounts, and then lets the promise settle. -/
theorem claim8_counterexample :
    (celebRun mountedCeleb
      [CelebEvent.autoplayDelayFire, CelebEvent.unmount,
       CelebEvent.autoplayReject]).postUnmountUpdates = 1 ∧
    (celebRun mountedCeleb
      [CelebEvent.keydown true, CelebEvent.unmount,
       CelebEvent.muteSyncReject]).postUnmountUpdates = 1 ∧
    (celebRun promptedCeleb
      [CelebEvent.gesture, CelebEvent.unmount,
       CelebEvent.gestureResolve]).postUnmountUpdates = 1 ∧
    (celebRun mountedCeleb
      [CelebEvent.imageTap, CelebEvent.unmount,
       CelebEvent.imageTapReject]).postUnmountPlayCalls = 1 := by
  decide

/-- Claim C8, amended: unmounting the celebration view cancels every timer
it armed (the four reveal timeouts, the typing interval, the delayed
autoplay attempt) and removes its event listeners, so no timer or listener
fires after unmount and, as long as no `audio.play()` promise that was in
flight at unmount settles through an unguarded continuation, no view-state
update or play call occurs after unmount.  What unmount does not cancel are
those continuations themselves: the autoplay `catch`, the mute-sync and
gesture `.then`/`.catch` handlers (which update state after unmount) and
the image-tap `catch` (which issues a further play call) — only the
autoplay success path checks the `cancelled` flag. -/
theorem claim8_unmount_cancellation (s : CelebView) (evs : List CelebEvent)
    (hm : s.mounted = true)
    (hne : ∀ e ∈ evs, unguardedContinuation e = false) :
    ((celebStep s .unmount).revealPending = 0 ∧
     (celebStep s .unmount).typingArmed = false ∧
     (celebStep s .unmount).autoplayDelayArmed = false ∧
     (celebStep s .unmount).keydownArmed = false ∧
     (celebStep s .unmount).gestureArmed = false ∧
     (celebStep s .unmount).cancelled = true) ∧
    (celebRun (celebStep s .unmount) evs).postUnmountUpdates =
      (celebStep s .unmount).postUnmountUpdates ∧
    (celebRun (celebStep s .unmount) evs).playCalls =
      (celebStep s .unmount).playCalls := by
  have hq : Quiesced (celebStep s .unmount) := by
    simp [celebStep, hm, Quiesced]
  refine ⟨⟨hq.2.1, hq.2.2.1, hq.2.2.2.1, hq.2.2.2.2.1, hq.2.2.2.2.2.1,
    hq.2.2.2.2.2.2⟩, ?_⟩
  exact quiesced_run evs _ hq hne

/-- Witness for `claim8_unmount_cancellation`: unmount straight from the
mounted state, followed by deliveries of every (now cancelled) timer and
listener event, a resolving in-flight autoplay promise (guarded) and an
image-tap resolution (no continuation) — no post-unmount update and no
play call results. -/
theorem claim8_unmount_cancellation_witness :
    (celebRun (celebStep mountedCeleb .unmount)
      [CelebEvent.revealFire, CelebEvent.typingTick,
       CelebEvent.autoplayDelayFire, CelebEvent.autoplayResolve,
       CelebEvent.keydown true, CelebEvent.gesture, CelebEvent.imageTap,
       CelebEvent.imageTapResolve]).postUnmountUpdates = 0 ∧
    (celebRun (celebStep mountedCeleb .unmount)
      [CelebEvent.revealFire, CelebEvent.typingTick,
       CelebEvent.autoplayDelayFire, CelebEvent.autoplayResolve,
       CelebEvent.keydown true, CelebEvent.gesture, CelebEvent.imageTap,
       CelebEvent.imageTapResolve]).playCalls = 0 := by
  have h := claim8_unmount_cancellation mountedCeleb
    [CelebEvent.revealFire, CelebEvent.typingTick,
     CelebEvent.autoplayDelayFire, CelebEvent.autoplayResolve,
     CelebEvent.keydown true, CelebEvent.gesture, CelebEvent.imageTap,
     CelebEvent.imageTapResolve]
    rfl (by decide)
  exact ⟨h.2.1, h.2.2⟩

/-! ## Diagnostic script ("CSS Loading Issue Checker")

The standalone node script scans a fixed list of paths.  `fs.existsSync`
and `fs.readFileSync` are modelled by a filesystem record: `present` is
whether the path exists, `contents` is `some` text or `none` when the read
throws (the script's `readFile` catches and returns `null`; a path can be
present yet unreadable — e.g. a permission error or a directory).  The
line-scanners `findCSSImports` / `findCSSLinks` are passed in abstractly as
functions on the file text, because the script's behaviour under scrutiny
(exit code, classification) does not depend on the extracted matches —
except that calling either scanner on `null` throws a `TypeError`
(`content.split('\n')` on `null`), which the model surfaces as `Except.error`
and node surfaces as a nonzero exit code. -/

structure CheckerFS where
  present : String → Bool
  contents : String → Option String

def checkerMainFiles : List String :=
  ["index.html", "src/main.jsx", "src/App.jsx",
   "src/pages/home.jsx", "src/pages/celebration.jsx"]

def checkerJsxFiles : List String :=
  ["src/pages/home.jsx", "src/pages/celebration.jsx"]

def checkerCssFiles : List String :=
  ["src/pages/home.styles.css", "src/pages/celebration.styles.css",
   "src/index.css", "src/App.css"]

/-- Applying a line-scanner (`findCSSImports` / `findCSSLinks`) to a file's
content: on `null` content it throws (`null.split` is a `TypeError`);
otherwise it returns whatever the pattern matching extracts. -/
def scanContent (extract : String → List String) :
    Option String → Except String (List String)
  | none => .error "TypeError: Cannot read properties of null"
  | some c => .ok (extract c)

/-- The jsx-files loop of the script (part_000 lines 103–119): this loop
does guard against a `null` read (`if (content)`, which in JS also skips an
empty string), so it cannot throw. -/
def checkerJsxImports (extract : String → List String) (fs : CheckerFS) :
    List String :=
  checkerJsxFiles.foldl
    (fun acc f =>
      if fs.present f then
        match fs.contents f with
        | some c => if c = "" then acc else acc ++ extract c
        | none => acc
      else acc) []

/-- JS `String.prototype.startsWith`, modelled on the character list. -/
def jsStartsWith (s pre : String) : Bool :=
  pre.toList.isPrefixOf s.toList

/-- The CSS IMPORT ANALYSIS classification (part_000 lines 245–250):
`Relative` when the path starts with `./` or `../`, otherwise `Absolute`
when it starts with `/`, otherwise `Module`. -/
def classifyImport (cssFile : String) : String :=
  let isRelative := jsStartsWith cssFile "./" || jsStartsWith cssFile "../"
  let isAbsolute := jsStartsWith cssFile "/"
  if isRelative then "Relative" else if isAbsolute then "Absolute"
  else "Module"

/-- The whole script run (part_000), reduced to the steps that can affect
the process exit code, in source order, and the final classification of the
collected imports.  The blocks at lines 143–155, 160–168, 190–203 and
208–220 read `index.html`, `src/main.jsx` and `src/App.jsx` after an
`existsSync` check but use the (possibly `null`) content without a null
guard; every other step is a `forEach`/`console.log` that cannot throw.
The script never calls `process.exit`, so it exits 0 unless a `TypeError`
escapes. -/
def runChecker (extractI extractL : String → List String)
    (fs : CheckerFS) : Except String (List String) := do
  let allImports := checkerJsxImports extractI fs
  if fs.present "index.html" then
    _ ← scanContent extractL (fs.contents "index.html")
  if fs.present "index.html" then
    match fs.contents "index.html" with
    | none => Except.error "TypeError: Cannot read properties of null"
    | some _ => pure ()
  if fs.present "src/main.jsx" then
    _ ← scanContent extractI (fs.contents "src/main.jsx")
  if fs.present "src/App.jsx" then
    _ ← scanContent extractI (fs.contents "src/App.jsx")
  pure (allImports.map classifyImport)

/-- The node process exit code of a run: 0 on normal completion, nonzero
when an exception escapes to the top level. -/
def checkerExitCode (extractI extractL : String → List String)
    (fs : CheckerFS) : Nat :=
  match runChecker extractI extractL fs with
  | .ok _ => 0
  | .error _ => 1

/-- A filesystem in which `index.html` exists but reading it throws (for
example, it is a directory, or unreadable due to permissions). -/
def unreadableIndexFS : CheckerFS :=
  { present := fun f => f = "index.html", contents := fun _ => none }

/-- Claim C9, counterexample.  The claim says the script exits 0 on every
run regardless of which scanned files exist or are readable.  But when
`index.html` exists and is not readable, `readFile` returns `null` and the
unguarded `findCSSLinks(htmlContent)` call dereferences it
(`content.split('\n')`), so a `TypeError` escapes and the process exits
nonzero. -/
theorem claim9_counterexample :
    checkerExitCode (fun _ => []) (fun _ => []) unreadableIndexFS ≠ 0 := by
  decide

theorem jsStartsWith_slash_not_rel (p : String)
    (h : jsStartsWith p "/" = true) :
    jsStartsWith p "./" = false ∧ jsStartsWith p "../" = false := by
  unfold jsStartsWith at h ⊢
  cases hp : p.toList with
  | nil => rw [hp] at h; simp [List.isPrefixOf] at h
  | cons c cs =>
    rw [hp] at h
    simp [List.isPrefixOf] at h
    subst h
    simp [List.isPrefixOf]

/-- Claim C9, amended: the script exits 0 on every run in which each
scanned file that exists is also readable (whether or not it exists), and
classifies each collected CSS import as `Relative` when its path starts
with `./` or `../`, `Absolute` when it starts with `/`, and `Module`
otherwise.  It does crash (nonzero exit) when `index.html`, `src/main.jsx`
or `src/App.jsx` exists but cannot be read. -/
theorem claim9_checker (extractI extractL : String → List String)
    (fs : CheckerFS)
    (hread : ∀ f : String, fs.present f = true → (fs.contents f).isSome = true) :
    checkerExitCode extractI extractL fs = 0 ∧
    (∀ p : String,
      ((jsStartsWith p "./" || jsStartsWith p "../") = true →
        classifyImport p = "Relative") ∧
      (jsStartsWith p "/" = true → classifyImport p = "Absolute") ∧
      ((jsStartsWith p "./" || jsStartsWith p "../") = false →
        jsStartsWith p "/" = false → classifyImport p = "Module")) := by
  constructor
  · unfold checkerExitCode runChecker
    by_cases h1 : fs.present "index.html" = true
    · obtain ⟨c1, hc1⟩ := Option.isSome_iff_exists.mp (hread _ h1)
      by_cases h2 : fs.present "src/main.jsx" = true
      · obtain ⟨c2, hc2⟩ := Option.isSome_iff_exists.mp (hread _ h2)
        by_cases h3 : fs.present "src/App.jsx" = true
        · obtain ⟨c3, hc3⟩ := Option.isSome_iff_exists.mp (hread _ h3)
          simp [h1, h2, h3, hc1, hc2, hc3, scanContent, Except.instMonad, Bind.bind, Except.bind, Pure.pure, Except.pure]
        · simp [h1, h2, h3, hc1, hc2, scanContent, Except.instMonad, Bind.bind, Except.bind, Pure.pure, Except.pure]
      · by_cases h3 : fs.present "src/App.jsx" = true
        · obtain ⟨c3, hc3⟩ := Option.isSome_iff_exists.mp (hread _ h3)
          simp [h1, h2, h3, hc1, hc3, scanContent, Except.instMonad, Bind.bind, Except.bind, Pure.pure, Except.pure]
        · simp [h1, h2, h3, hc1, scanContent, Except.instMonad, Bind.bind, Except.bind, Pure.pure, Except.pure]
    · by_cases h2 : fs.present "src/main.jsx" = true
      · obtain ⟨c2, hc2⟩ := Option.isSome_iff_exists.mp (hread _ h2)
        by_cases h3 : fs.present "src/App.jsx" = true
        · obtain ⟨c3, hc3⟩ := Option.isSome_iff_exists.mp (hread _ h3)
          simp [h1, h2, h3, hc2, hc3, scanContent, Except.instMonad, Bind.bind, Except.bind, Pure.pure, Except.pure]
        · simp [h1, h2, h3, hc2, scanContent, Except.instMonad, Bind.bind, Except.bind, Pure.pure, Except.pure]
      · by_cases h3 : fs.present "src/App.jsx" = true
        · obtain ⟨c3, hc3⟩ := Option.isSome_iff_exists.mp (hread _ h3)
          simp [h1, h2, h3, hc3, scanContent, Except.instMonad, Bind.bind, Except.bind, Pure.pure, Except.pure]
        · simp [h1, h2, h3, scanContent, Except.instMonad, Bind.bind, Except.bind, Pure.pure, Except.pure]
  · intro p
    refine ⟨?_, ?_, ?_⟩
    · intro h; simp [classifyImport, h]
    · intro h
      obtain ⟨hr1, hr2⟩ := jsStartsWith_slash_not_rel p h
      simp [classifyImport, hr1, hr2, h]
    · intro h1 h2
      simp [classifyImport, h1, h2]

/-- Witness for `claim9_checker`: a filesystem in which every scanned file
exists with readable (empty) content exits 0, and a module-style import
path is classified `Module`. -/
theorem claim9_checker_witness :
    checkerExitCode (fun _ => []) (fun _ => [])
      { present := fun _ => true, contents := fun _ => some "" } = 0 ∧
    classifyImport "bootstrap/dist/bootstrap.css" = "Module" := by
  have h := claim9_checker (fun _ => []) (fun _ => [])
    { present := fun _ => true, contents := fun _ => some "" }
    (fun _ _ => rfl)
  exact ⟨h.1, (h.2 "bootstrap/dist/bootstrap.css").2.2 (by decide) (by decide)⟩

end BdayApp
